import Mathlib

/-!
Shallow embedding of `src/chatbot_ui.py` (class `AgenticProposalRH`) and
verification of the specification's claims about it.

Modelling conventions:
* The process environment is an association list `List (String × String)`;
  `os.getenv(k, d)` becomes `getenvD env k d`.
* Python `float(...)` / `int(...)` become `pyFloat?` / `pyInt?` returning
  `Option` (`none` models the `ValueError` the Python call raises).  Python
  floats are modelled as exact rationals `ℚ`; every numeric value the claims
  touch (defaults 0.95, 4096, 1, comparisons against 0.0) is exact in both
  representations.
* `__init__` becomes `init : Env → Except String Settings`; an `.error`
  result models the uncaught exception that aborts startup.  Logging calls
  are side-effect free for every claim and are not modelled; the
  `LOG_LEVELS` table lives in `constants.py`, which is not part of the
  sources, and no claim depends on it, so the two log-level variables are
  kept as raw strings.
* The remote service is an oracle: the identifiers it returns
  (`agent_id`, `session_id`) and the per-turn response stream are inputs to
  the embedded functions, while the requests the code sends
  (`agent_config`, `TurnRequest`) are outputs, so claims about request
  contents are claims about these output values.
* The generator body of `make_questions` (lines 130-143) becomes the total
  function `process_stream`; the list it returns is the finite sequence of
  values the generator yields.  Totality of `process_stream` models the
  fact that the loop terminates normally (swallowing errors) rather than
  raising.
* Duck typing on stream records (`hasattr`/`getattr` probing at lines
  132-139) is modelled by `Option` fields on `Response`: for `error`,
  `some e` means "attribute present with a Python-truthy value" and `none`
  means "absent or falsy"; for `event`/`payload`, objects are always truthy
  in Python, so `Option` encodes plain presence.  `Payload.turn` is only
  accessed by the code on `turn_complete` events, so it is modelled as a
  total field whose value is meaningless (and never read) on other events.
-/

/-- A process environment: an association list from variable names to
values, looked up first-match (environments have no duplicate keys). -/
abbrev Env : Type := List (String × String)

/-- Models `os.getenv(key)`: the value of `key` in the environment, if present. -/
def getenv (env : Env) (key : String) : Option String :=
  (List.find? (fun p => p.1 == key) env).map (fun p => p.2)

/-- Models `os.getenv(key, default)`: value of `key`, or `default` when absent. -/
def getenvD (env : Env) (key : String) (dflt : String) : String :=
  (getenv env key).getD dflt

/-- Numeric value of a list of decimal digit characters. -/
def digitsToNat (l : List Char) : Nat :=
  l.foldl (fun a c => a * 10 + (c.toNat - 48)) 0

/-- Models Python `float(s)` on plain decimal literals: an optional sign
followed by digits with an optional fractional part (`"3"`, `"-2.5"`,
`".5"`, `"1."`).  `none` models the `ValueError` raised on any other
string, e.g. `"abc"`.  Exotic accepted forms (exponents, `inf`, `nan`,
underscores, surrounding whitespace) are not exercised by any claim and
are not modelled.  The result is the exact rational value. -/
def pyFloat? (s : String) : Option ℚ :=
  let cs := s.data
  let neg : Bool := match cs with
    | '-' :: _ => true
    | _ => false
  let cs₁ : List Char := match cs with
    | '-' :: t => t
    | '+' :: t => t
    | _ => cs
  let intPart := cs₁.takeWhile (fun c => c != '.')
  let rest := cs₁.dropWhile (fun c => c != '.')
  let fracPart : List Char := match rest with
    | [] => []
    | _ :: t => t
  let shapeOk : Bool :=
    intPart.all Char.isDigit && fracPart.all Char.isDigit &&
      (!intPart.isEmpty || !fracPart.isEmpty) &&
      (rest.isEmpty || (rest.headD ' ' == '.'))
  if shapeOk then
    let mag : ℚ :=
      (digitsToNat intPart : ℚ) + (digitsToNat fracPart : ℚ) / (10 ^ fracPart.length : ℚ)
    some (if neg then -mag else mag)
  else
    none

/-- Models Python `int(s)` on plain decimal literals: an optional sign
followed by at least one digit.  `none` models the `ValueError` raised on
any other string. -/
def pyInt? (s : String) : Option Int :=
  let cs := s.data
  let neg : Bool := match cs with
    | '-' :: _ => true
    | _ => false
  let ds : List Char := match cs with
    | '-' :: t => t
    | '+' :: t => t
    | _ => cs
  if ds.all Char.isDigit && !ds.isEmpty then
    some (if neg then -(digitsToNat ds : Int) else (digitsToNat ds : Int))
  else
    none

/-- The sampling strategy dict built at lines 46-51: either
`{"type": "top_p", "temperature": t, "top_p": p}` or `{"type": "greedy"}`. -/
inductive Strategy where
  | top_p (temperature : ℚ) (top_p : ℚ)
  | greedy
  deriving Repr, DecidableEq

/-- The `self.sampling_params` dict (lines 56-59). -/
structure SamplingParams where
  strategy : Strategy
  max_tokens : Int
  deriving Repr, DecidableEq

/-- The state `__init__` leaves on the object (lines 26-67), log levels
kept as the raw strings read from the environment. -/
structure Settings where
  root_log_level : String
  app_log_level : String
  model_id : String
  base_url : String
  sampling_params : SamplingParams
  stream : Bool
  max_infer_iters : Int
  deriving Repr, DecidableEq

/-- Line 46: `float(os.getenv("TEMPERATURE", 0.95))`; when the variable is
absent the Python default is the float `0.95` itself, so no parse happens. -/
def read_temperature (env : Env) : Option ℚ :=
  match getenv env "TEMPERATURE" with
  | some s => pyFloat? s
  | none => some (19 / 20)

/-- Line 48: `float(os.getenv("TOP_P", 0.95))` (only ever evaluated when
the temperature is positive). -/
def read_top_p (env : Env) : Option ℚ :=
  match getenv env "TOP_P" with
  | some s => pyFloat? s
  | none => some (19 / 20)

/-- Line 53: `int(os.getenv("MAX_TOKENS", 4096))`. -/
def read_max_tokens (env : Env) : Option Int :=
  match getenv env "MAX_TOKENS" with
  | some s => pyInt? s
  | none => some 4096

/-- Line 67: `int(os.getenv("MAX_INFER_ITERS", 1))`. -/
def read_max_infer_iters (env : Env) : Option Int :=
  match getenv env "MAX_INFER_ITERS" with
  | some s => pyInt? s
  | none => some 1

/-- Lines 46-51: parse the temperature, and only when it is `> 0.0` parse
`TOP_P` and build the nucleus-sampling strategy; otherwise greedy.
`.error` models the `ValueError` escaping `__init__`. -/
def read_strategy (env : Env) : Except String Strategy :=
  match read_temperature env with
  | none => .error "ValueError: TEMPERATURE"
  | some temperature =>
    if temperature > 0 then
      match read_top_p env with
      | none => .error "ValueError: TOP_P"
      | some top_p => .ok (.top_p temperature top_p)
    else
      .ok .greedy

namespace AgenticProposalRH

/-- Models `__init__` (lines 21-69): read configuration from the environment in
source order; any numeric parse failure aborts with the corresponding
`ValueError`.  The `LlamaStackClient` constructed at line 40 performs no
remote call; remote calls only happen in `create_agent` and
`make_questions`, which consume the `Settings` this returns. -/
def init (env : Env) : Except String Settings :=
  let root_log_level := getenvD env "ROOT_LOG_LEVEL" "INFO"
  let app_log_level := getenvD env "APP_LOG_LEVEL" "INFO"
  let model_id := getenvD env "MODEL_ID" "granite-3-3-8b-instruct"
  let base_url := getenvD env "LLAMA_STACK_BASE_URL" "http://localhost:8321"
  match read_strategy env with
  | .error e => .error e
  | .ok strategy =>
    match read_max_tokens env with
    | none => .error "ValueError: MAX_TOKENS"
    | some max_tokens =>
      let stream_env := getenvD env "STREAM" "True"
      let stream : Bool := stream_env != "False"
      match read_max_infer_iters env with
      | none => .error "ValueError: MAX_INFER_ITERS"
      | some max_infer_iters =>
        .ok { root_log_level := root_log_level
              app_log_level := app_log_level
              model_id := model_id
              base_url := base_url
              sampling_params := { strategy := strategy, max_tokens := max_tokens }
              stream := stream
              max_infer_iters := max_infer_iters }

end AgenticProposalRH

/-- A tool-group entry of the `toolgroups` list at lines 85-91: either a
bare tool-group name or a name with a `vector_db_ids` argument dict. -/
inductive ToolGroup where
  | plain (tgName : String)
  | rag (tgName : String) (vector_db_ids : List String)
  deriving Repr, DecidableEq

/-- The `agent_config` dict sent by `client.agents.create` (lines 76-98). -/
structure AgentConfig where
  agcName : String
  description : String
  model : String
  instructions : String
  toolgroups : List ToolGroup
  tool_choice : String
  input_shields : List String
  output_shields : List String
  max_infer_iters : Int
  sampling_params : SamplingParams
  deriving Repr, DecidableEq

/-- One user message of the `messages` list at lines 122-127. -/
structure Message where
  role : String
  content : String
  deriving Repr, DecidableEq

/-- The request sent by `client.agents.turn.create` (lines 118-128). -/
structure TurnRequest where
  session_id : String
  agent_id : String
  stream : Bool
  messages : List Message
  deriving Repr, DecidableEq

/-- The `output_message` object of a completed turn (line 141 reads `.content`). -/
structure OutputMessage where
  content : String
  deriving Repr, DecidableEq

/-- The `turn` object carried by a `turn_complete` payload (line 141). -/
structure PayloadTurn where
  output_message : OutputMessage
  deriving Repr, DecidableEq

/-- Models `response.event.payload` (lines 139-141).  The code reads `turn` only
when `event_type == "turn_complete"`; on other events the real object has
no such attribute, so here `turn` defaults to a dummy value that is never
read on those events. -/
structure Payload where
  event_type : String
  turn : PayloadTurn := { output_message := { content := "" } }
  deriving Repr, DecidableEq

/-- Models `response.event` (lines 138-139); `payload = none` models an event
object without a `payload` attribute (the `hasattr` probe at line 139). -/
structure Event where
  payload : Option Payload
  deriving Repr, DecidableEq

/-- One record of the response stream (lines 132-143).  `error = some e`
models "`error` attribute present with a Python-truthy value" (the
`hasattr`/`getattr` probe at line 133; a truthy error is a dict whose
optional `"message"` entry is `e.message`); `error = none` models
absent-or-falsy.  `event = some ev` models an `event` attribute holding an
object (objects are always truthy); `none` models absent or `None`. -/
structure Response where
  error : Option (Option String) := none
  event : Option Event := none
  deriving Repr, DecidableEq

/-- Whether a record passes the `elif` test at lines 138-139: it has a
truthy `event` with a `payload` whose `event_type` is `"turn_complete"`. -/
def isTurnComplete (r : Response) : Bool :=
  match r.event with
  | none => false
  | some ev =>
    match ev.payload with
    | none => false
    | some p => p.event_type == "turn_complete"

/-- The output-message text of a record, when it is a `turn_complete`
event (the value appended at line 141); `none` otherwise. -/
def turnCompleteText (r : Response) : Option String :=
  match r.event with
  | none => none
  | some ev =>
    match ev.payload with
    | none => none
    | some p =>
      if p.event_type == "turn_complete" then
        some p.turn.output_message.content
      else
        none

/-- The loop at lines 130-143 of `make_questions`, with accumulator `acc`
(the Python local `partial_response`, initially `""`): an error record
breaks out of the loop; a `turn_complete` event appends its text to the
accumulator and yields it; any other record is skipped.  The result is
the finite list of yielded values; totality models normal termination
(the error is logged and swallowed, never raised). -/
def process_stream (acc : String) : List Response → List String
  | [] => []
  | r :: rs =>
    match r.error with
    | some _ => []
    | none =>
      match turnCompleteText r with
      | some text => (acc ++ text) :: process_stream (acc ++ text) rs
      | none => process_stream acc rs

namespace AgenticProposalRH

/-- The object state after `create_agent` has run: the `Settings` left by
`__init__` plus the fields assigned at lines 99-106. -/
structure AgentState where
  settings : Settings
  agent_id : String
  session_id : String
  history_formatted : List String
  deriving Repr, DecidableEq

/-- The `agent_config` dict that `create_agent` sends (lines 76-98): every
field is fixed in the source except the model id, max inference iterations
and sampling parameters, which come from `__init__`'s settings.  In
particular the retrieval tool's `vector_db_ids` is the literal
`["ocp_rh_vector_db"]` (line 89). -/
def agent_config (s : Settings) : AgentConfig :=
  { agcName := "Orquestrator Agent"
    description := "Agent for help with with Red Hat proposals"
    model := s.model_id
    instructions :=
      "You are a helpful assistant." ++
        "You can use the tools available to answer user questions."
    toolgroups :=
      [ .plain "ocp::proposal",
        .rag "builtin::rag/knowledge_search" ["ocp_rh_vector_db"] ]
    tool_choice := "auto"
    input_shields := []
    output_shields := []
    max_infer_iters := s.max_infer_iters
    sampling_params := s.sampling_params }

/-- Models `create_agent` (lines 72-107): sends `agent_config s` to the service,
stores the agent id it returns, creates a session on that agent and stores
the session id, and resets `history_formatted` to `[]`.  The two ids are
the service's replies, so they are parameters here. -/
def create_agent (s : Settings) (agentId sessionId : String) : AgentState :=
  { settings := s
    agent_id := agentId
    session_id := sessionId
    history_formatted := [] }

/-- Everything one call to `make_questions` produces: the new object
state, the turn request it sent, and the fragments it yielded. -/
structure MQResult where
  state : AgentState
  request : TurnRequest
  yields : List String
  deriving Repr, DecidableEq

/-- Models `make_questions` (lines 110-143): appends the raw `question` to
`history_formatted`, sends a single-message turn request on the stored
(agent id, session id) with the settings' stream flag, and relays the
service's response stream through `process_stream`.  The `history`
argument (supplied by the chat UI) and the response stream the service
returns are inputs; `history` is never used, exactly as in the source. -/
def make_questions (st : AgentState) (question : String) (history : List String)
    (responseStream : List Response) : MQResult :=
  { state := { st with history_formatted := st.history_formatted ++ [question] }
    request :=
      { session_id := st.session_id
        agent_id := st.agent_id
        stream := st.settings.stream
        messages := [{ role := "user", content := question }] }
    yields := process_stream "" responseStream }

/-- A sequence of `make_questions` calls run in order, each call given by
its `(question, history, response stream)` triple; returns the final state
and the turn requests sent, in order. -/
def runQuestions (st : AgentState) :
    List (String × List String × List Response) → AgentState × List TurnRequest
  | [] => (st, [])
  | (q, h, resp) :: rest =>
    let r := make_questions st q h resp
    let (st', reqs) := runQuestions r.state rest
    (st', r.request :: reqs)

end AgenticProposalRH

/-- A stream record carrying a completed turn whose output-message text is
`s` (used to exercise the theorems on concrete streams). -/
def complete (s : String) : Response :=
  { event := some
      { payload := some
          { event_type := "turn_complete"
            turn := { output_message := { content := s } } } } }

/-- A stream record whose `error` attribute is present and truthy, with
message `"boom"`. -/
def errorResponse : Response :=
  { error := some (some "boom") }

/-- A non-error stream record whose event is not a `turn_complete` event
(an incremental `step_progress` update). -/
def stepResponse : Response :=
  { event := some { payload := some { event_type := "step_progress" } } }

/-- The `Settings` value `init` produces from an empty environment (all
defaults). -/
def defaultSettings : Settings :=
  { root_log_level := "INFO"
    app_log_level := "INFO"
    model_id := "granite-3-3-8b-instruct"
    base_url := "http://localhost:8321"
    sampling_params := { strategy := .top_p (19 / 20) (19 / 20), max_tokens := 4096 }
    stream := true
    max_infer_iters := 1 }

/-- The `Settings` value `init` produces from the environment
`TEMPERATURE=0, TOP_P=abc`: greedy strategy, everything else defaulted. -/
def greedySettings : Settings :=
  { root_log_level := "INFO"
    app_log_level := "INFO"
    model_id := "granite-3-3-8b-instruct"
    base_url := "http://localhost:8321"
    sampling_params := { strategy := .greedy, max_tokens := 4096 }
    stream := true
    max_infer_iters := 1 }

/-- The `Settings` value `init` produces from the environment
`STREAM=False`: stream flag off, everything else defaulted. -/
def noStreamSettings : Settings :=
  { defaultSettings with stream := false }

/-- An agent state as left by `create_agent` on the default settings, with
service-chosen identifiers `"agent-1"` / `"session-1"`. -/
def demoState : AgenticProposalRH.AgentState :=
  AgenticProposalRH.create_agent defaultSettings "agent-1" "session-1"

open AgenticProposalRH

/-! ### Helper lemmas -/

lemma join_nil : String.join [] = "" := rfl

lemma join_cons (s : String) (l : List String) :
    String.join (s :: l) = s ++ String.join l := by
  apply String.ext
  simp

lemma getenv_cons_ne (k' v : String) (env : Env) (k : String)
    (h : (k' == k) = false) :
    getenv ((k', v) :: env) k = getenv env k := by
  unfold getenv
  rw [List.find?_cons_of_neg]
  simp [h]

lemma getenvD_cons_ne (k' v : String) (env : Env) (k dflt : String)
    (h : (k' == k) = false) :
    getenvD ((k', v) :: env) k dflt = getenvD env k dflt := by
  unfold getenvD
  rw [getenv_cons_ne k' v env k h]

lemma turnCompleteText_eq_none (r : Response) (h : isTurnComplete r = false) :
    turnCompleteText r = none := by
  unfold isTurnComplete at h
  unfold turnCompleteText
  cases he : r.event with
  | none => rfl
  | some ev =>
    rw [he] at h
    cases hp : ev.payload with
    | none => simp [hp]
    | some p =>
      simp only [hp] at h
      simp [hp, h]

lemma process_stream_stops_at_error (err : Response) (e : Option String)
    (herr : err.error = some e) :
    ∀ (pre : List Response) (post : List Response) (acc : String),
      process_stream acc (pre ++ err :: post) = process_stream acc pre := by
  intro pre
  induction pre with
  | nil =>
    intro post acc
    simp only [List.nil_append, process_stream, herr]
  | cons q pre ih =>
    intro post acc
    simp only [List.cons_append, process_stream]
    cases hq : q.error with
    | some e' => rfl
    | none =>
      cases htq : turnCompleteText q with
      | none => simpa only [hq, htq] using ih post acc
      | some t => simpa only [hq, htq] using congrArg _ (ih post (acc ++ t))

lemma process_stream_skips (r : Response) (hr : r.error = none)
    (htc : isTurnComplete r = false) :
    ∀ (pre : List Response) (post : List Response) (acc : String),
      process_stream acc (pre ++ r :: post) = process_stream acc (pre ++ post) := by
  intro pre
  induction pre with
  | nil =>
    intro post acc
    simp only [List.nil_append, process_stream, hr, turnCompleteText_eq_none r htc]
  | cons q pre ih =>
    intro post acc
    simp only [List.cons_append, process_stream]
    cases hq : q.error with
    | some e' => rfl
    | none =>
      cases htq : turnCompleteText q with
      | none => simpa only [hq, htq] using ih post acc
      | some t => simpa only [hq, htq] using congrArg _ (ih post (acc ++ t))

lemma process_stream_no_error :
    ∀ (rs : List Response), (∀ r ∈ rs, r.error = none) → ∀ acc : String,
      process_stream acc rs =
        (List.range (rs.filterMap turnCompleteText).length).map
          (fun k => acc ++ String.join ((rs.filterMap turnCompleteText).take (k + 1))) := by
  intro rs
  induction rs with
  | nil => intro _ acc; simp [process_stream]
  | cons r rs ih =>
    intro h acc
    have hr : r.error = none := h r (List.mem_cons_self r rs)
    have hrs : ∀ x ∈ rs, x.error = none := fun x hx => h x (List.mem_cons_of_mem r hx)
    cases htc : turnCompleteText r with
    | none =>
      simp only [process_stream, hr, htc, List.filterMap_cons]
      exact ih hrs acc
    | some t =>
      have ihh := ih hrs (acc ++ t)
      simp only [process_stream, hr, htc, List.filterMap_cons, List.length_cons,
        List.range_succ_eq_map, List.map_cons, List.map_map, List.take_succ_cons,
        List.take_zero, join_cons, join_nil, String.append_empty]
      rw [ihh]
      refine congrArg (fun l => (acc ++ t) :: l) ?_
      refine List.map_congr_left ?_
      intro k _
      simp only [Function.comp, List.take_succ_cons, join_cons, String.append_assoc]

lemma init_ok_elim (env : Env) (s : Settings) (hok : init env = .ok s) :
    read_strategy env = .ok s.sampling_params.strategy ∧
    read_max_tokens env = some s.sampling_params.max_tokens ∧
    read_max_infer_iters env = some s.max_infer_iters ∧
    s.stream = (getenvD env "STREAM" "True" != "False") := by
  cases h1 : read_strategy env with
  | error e => exact absurd hok (by simp [init, h1])
  | ok st =>
    cases h2 : read_max_tokens env with
    | none => exact absurd hok (by simp [init, h1, h2])
    | some mt =>
      cases h3 : read_max_infer_iters env with
      | none => exact absurd hok (by simp [init, h1, h2, h3])
      | some mi =>
        simp only [init, h1, h2, h3, Except.ok.injEq] at hok
        refine ⟨?_, ?_, ?_, ?_⟩ <;> rw [← hok]

lemma init_error_exists_iff (env : Env) :
    (∃ e, init env = .error e) ↔
      (∃ e, read_strategy env = .error e) ∨
        read_max_tokens env = none ∨ read_max_infer_iters env = none := by
  cases h1 : read_strategy env with
  | error e => simp [init, h1]
  | ok st =>
    cases h2 : read_max_tokens env with
    | none => simp [init, h1, h2]
    | some mt =>
      cases h3 : read_max_infer_iters env with
      | none => simp [init, h1, h2, h3]
      | some mi => simp [init, h1, h2, h3]

lemma read_strategy_error_exists_iff (env : Env) :
    (∃ e, read_strategy env = .error e) ↔
      read_temperature env = none ∨
        (∃ t, read_temperature env = some t ∧ t > 0 ∧ read_top_p env = none) := by
  cases ht : read_temperature env with
  | none => simp [read_strategy, ht]
  | some t =>
    by_cases hpos : t > 0
    · cases htp : read_top_p env with
      | none => simp [read_strategy, ht, hpos, htp]
      | some p => simp [read_strategy, ht, hpos, htp]
    · simp [read_strategy, ht, hpos]

lemma runQuestions_preserves_ids :
    ∀ (calls : List (String × List String × List Response))
      (st : AgenticProposalRH.AgentState),
      (runQuestions st calls).1.agent_id = st.agent_id ∧
      (runQuestions st calls).1.session_id = st.session_id ∧
      (runQuestions st calls).2.all
        (fun req => req.agent_id == st.agent_id && req.session_id == st.session_id)
        = true := by
  intro calls
  induction calls with
  | nil => intro st; exact ⟨rfl, rfl, rfl⟩
  | cons c rest ih =>
    intro st
    obtain ⟨q, h, resp⟩ := c
    have hrun : runQuestions st ((q, h, resp) :: rest) =
        ((runQuestions (make_questions st q h resp).state rest).1,
         (make_questions st q h resp).request ::
           (runQuestions (make_questions st q h resp).state rest).2) := rfl
    obtain ⟨ha, hs, hall⟩ := ih (make_questions st q h resp).state
    rw [hrun]
    refine ⟨ha, hs, ?_⟩
    simp only [List.all_cons, Bool.and_eq_true, beq_iff_eq]
    exact ⟨⟨rfl, rfl⟩, hall⟩

/-! ### Claim theorems -/

/-- C1: for every `make_questions` call whose response stream contains no
error record, the generator yields exactly one fragment per
`turn_complete` event, in stream order, and the fragment at index `k`
equals the concatenation of the output-message texts of the first `k + 1`
`turn_complete` events (accumulation, not replacement). -/
theorem make_questions_accumulates_turn_complete
    (st : AgenticProposalRH.AgentState) (q : String) (h : List String)
    (rs : List Response) (hno : ∀ r ∈ rs, r.error = none) :
    (make_questions st q h rs).yields =
      (List.range (rs.filterMap turnCompleteText).length).map
        (fun k => String.join ((rs.filterMap turnCompleteText).take (k + 1))) := by
  show process_stream "" rs = _
  rw [process_stream_no_error rs hno ""]
  exact List.map_congr_left fun k _ => String.empty_append _

/-- Witness for C1: on the stream `[complete "A", complete "B"]` the call
yields exactly `"A"` then `"AB"`. -/
theorem make_questions_accumulates_turn_complete_example :
    (∀ r ∈ [complete "A", complete "B"], r.error = none) ∧
      (make_questions demoState "hello" [] [complete "A", complete "B"]).yields
        = ["A", "AB"] :=
  ⟨by decide,
   (make_questions_accumulates_turn_complete demoState "hello" []
       [complete "A", complete "B"] (by decide)).trans (by decide)⟩

/-- C2: when the response stream carries a record with a truthy error
payload, `make_questions` ends normally at that record (the function is
total, so no exception reaches the caller) and yields nothing beyond what
the error-free prefix produced; in particular an error as first record
means no fragment at all. -/
theorem make_questions_error_swallowed
    (st : AgenticProposalRH.AgentState) (q : String) (h : List String)
    (pre post : List Response) (err : Response) (e : Option String)
    (herr : err.error = some e) :
    (make_questions st q h (pre ++ err :: post)).yields =
      (make_questions st q h pre).yields := by
  show process_stream "" (pre ++ err :: post) = process_stream "" pre
  exact process_stream_stops_at_error err e herr pre post ""

/-- Witness for C2: on the stream `[error, complete "A"]` no fragment is
yielded. -/
theorem make_questions_error_swallowed_example :
    errorResponse.error = some (some "boom") ∧
      (make_questions demoState "hello" [] [errorResponse, complete "A"]).yields
        = [] :=
  ⟨rfl,
   (make_questions_error_swallowed demoState "hello" [] [] [complete "A"]
       errorResponse (some "boom") rfl).trans rfl⟩

/-- C3: after `create_agent` stores the service-returned
(agent id, session id) pair, any sequence of `make_questions` calls sends
every turn-creation request with exactly that pair, and the final object
state still holds it unchanged. -/
theorem create_agent_ids_stable (s : Settings) (aId sId : String)
    (calls : List (String × List String × List Response)) :
    (runQuestions (create_agent s aId sId) calls).1.agent_id = aId ∧
    (runQuestions (create_agent s aId sId) calls).1.session_id = sId ∧
    (runQuestions (create_agent s aId sId) calls).2.all
      (fun req => req.agent_id == aId && req.session_id == sId) = true :=
  runQuestions_preserves_ids calls (create_agent s aId sId)

/-- C4: for every environment on which startup succeeds, the computed
stream flag is `false` exactly when the `STREAM` variable (default
`"True"`) equals `"False"`, and that exact boolean is the `stream`
argument of every turn-creation request `make_questions` sends. -/
theorem stream_flag_matches_env (env : Env) (s : Settings)
    (hok : AgenticProposalRH.init env = .ok s) :
    (s.stream = false ↔ getenvD env "STREAM" "True" = "False") ∧
    ∀ (st : AgenticProposalRH.AgentState) (q : String) (h : List String)
      (rs : List Response), st.settings = s →
        (make_questions st q h rs).request.stream = s.stream := by
  obtain ⟨-, -, -, hstream⟩ := init_ok_elim env s hok
  constructor
  · rw [hstream]
    simp [bne]
  · intro st q h rs hset
    show st.settings.stream = s.stream
    rw [hset]

/-- Witness for C4: with `STREAM=False` startup yields the stream flag
`false` and a turn request carrying `stream := false`. -/
theorem stream_flag_matches_env_example :
    AgenticProposalRH.init [("STREAM", "False")] = .ok noStreamSettings ∧
      (noStreamSettings.stream = false ↔
        getenvD [("STREAM", "False")] "STREAM" "True" = "False") ∧
      (make_questions (create_agent noStreamSettings "agent-1" "session-1")
          "hello" [] []).request.stream = noStreamSettings.stream :=
  have hinit : AgenticProposalRH.init [("STREAM", "False")]
      = .ok noStreamSettings := by with_unfolding_all rfl
  ⟨hinit, (stream_flag_matches_env _ _ hinit).1,
    (stream_flag_matches_env _ _ hinit).2 _ "hello" [] [] rfl⟩

/-- C5: every `make_questions` call appends exactly the raw question to
the in-memory running history (append-only) and sends a turn request
carrying exactly one message, the latest question, never the accumulated
history. -/
theorem make_questions_appends_history_single_message
    (st : AgenticProposalRH.AgentState) (q : String) (h : List String)
    (rs : List Response) :
    (make_questions st q h rs).state.history_formatted
        = st.history_formatted ++ [q] ∧
      (make_questions st q h rs).request.messages
        = [{ role := "user", content := q }] :=
  ⟨rfl, rfl⟩

/-- C6 counterexample: the claim quantifies over all four numeric
environment variables, but a non-numeric `TOP_P` does not abort startup
when the parsed temperature is not positive — with `TEMPERATURE=0` and
`TOP_P=abc`, initialization succeeds (greedy strategy, no error). -/
theorem init_ok_despite_malformed_top_p :
    pyFloat? "abc" = none ∧
      AgenticProposalRH.init [("TEMPERATURE", "0"), ("TOP_P", "abc")]
        = .ok greedySettings :=
  ⟨rfl, by with_unfolding_all rfl⟩

/-- C6 (amended): a non-numeric value in `TEMPERATURE`, `MAX_TOKENS` or
`MAX_INFER_ITERS` always makes initialization fail with a startup error,
and a non-numeric `TOP_P` does so whenever the parsed temperature is
positive (`TOP_P` is not read otherwise); the failure happens before any
remote call, since both remote operations consume the `Settings` a
successful `init` returns. -/
theorem init_error_on_malformed_numeric (env : Env)
    (hbad :
      (∃ v, getenv env "TEMPERATURE" = some v ∧ pyFloat? v = none) ∨
      (∃ v, getenv env "MAX_TOKENS" = some v ∧ pyInt? v = none) ∨
      (∃ v, getenv env "MAX_INFER_ITERS" = some v ∧ pyInt? v = none) ∨
      (∃ v t, getenv env "TOP_P" = some v ∧ pyFloat? v = none ∧
        read_temperature env = some t ∧ t > 0)) :
    ∃ e, AgenticProposalRH.init env = .error e := by
  rw [init_error_exists_iff]
  rcases hbad with ⟨v, hv, hp⟩ | ⟨v, hv, hp⟩ | ⟨v, hv, hp⟩ | ⟨v, t, hv, hp, ht, hpos⟩
  · left
    rw [read_strategy_error_exists_iff]
    left
    simp [read_temperature, hv, hp]
  · right; left
    simp [read_max_tokens, hv, hp]
  · right; right
    simp [read_max_infer_iters, hv, hp]
  · left
    rw [read_strategy_error_exists_iff]
    right
    exact ⟨t, ht, hpos, by simp [read_top_p, hv, hp]⟩

/-- Witness for C6 (amended): `MAX_TOKENS=abc` aborts initialization. -/
theorem init_error_on_malformed_numeric_example :
    (∃ v, getenv [("MAX_TOKENS", "abc")] "MAX_TOKENS" = some v ∧
        pyInt? v = none) ∧
      ∃ e, AgenticProposalRH.init [("MAX_TOKENS", "abc")] = .error e :=
  ⟨⟨"abc", by decide, by decide⟩,
   init_error_on_malformed_numeric _ (Or.inr (Or.inl ⟨"abc", by decide, by decide⟩))⟩

/-- C7 counterexample: the claim says the retrieval tool is parameterized
by a vector-index identifier read from the environment, but `create_agent`
reads no such variable: setting one changes nothing in the agent
configuration, whose retrieval tool always carries the fixed identifier
`"ocp_rh_vector_db"`. -/
theorem agent_config_ignores_vector_db_env :
    (AgenticProposalRH.init [("VECTOR_DB_ID", "custom_vector_db")]).map
        agent_config
      = (AgenticProposalRH.init []).map agent_config ∧
    (agent_config defaultSettings).toolgroups
      = [ToolGroup.plain "ocp::proposal",
         ToolGroup.rag "builtin::rag/knowledge_search" ["ocp_rh_vector_db"]] :=
  ⟨by with_unfolding_all rfl, rfl⟩

/-- C7 (amended): for every `Settings`, `create_agent` registers the agent
with the fixed instruction string, the tool list consisting of the domain
tool `"ocp::proposal"` plus one retrieval tool parameterized by the fixed
vector-index identifier `"ocp_rh_vector_db"` (hardcoded, not read from the
environment), empty input- and output-shield lists, and the sampling
configuration and max-iteration count taken from `Settings`. -/
theorem agent_config_matches_settings (s : Settings) :
    (agent_config s).instructions =
        "You are a helpful assistant.You can use the tools available to answer user questions." ∧
      (agent_config s).toolgroups =
        [ToolGroup.plain "ocp::proposal",
         ToolGroup.rag "builtin::rag/knowledge_search" ["ocp_rh_vector_db"]] ∧
      (agent_config s).input_shields = [] ∧
      (agent_config s).output_shields = [] ∧
      (agent_config s).max_infer_iters = s.max_infer_iters ∧
      (agent_config s).sampling_params = s.sampling_params ∧
      (agent_config s).model = s.model_id :=
  ⟨rfl, rfl, rfl, rfl, rfl, rfl, rfl⟩

/-- C8: with `TEMPERATURE` parsing to `t` (default `0.95`), a positive `t`
gives the nucleus-sampling strategy carrying `t` and the parsed `TOP_P`
(default `0.95`), while a non-positive `t` gives the greedy strategy and
leaves `TOP_P` unread — initialization is then unaffected by any `TOP_P`
value, malformed or not; a successful `init` stores exactly this
strategy. -/
theorem sampling_strategy_spec (env : Env) (t : ℚ)
    (ht : read_temperature env = some t) :
    (getenv env "TEMPERATURE" = none → t = 19 / 20) ∧
    (t > 0 → ∀ p, read_top_p env = some p →
      read_strategy env = .ok (.top_p t p)) ∧
    (t > 0 → getenv env "TOP_P" = none →
      read_strategy env = .ok (.top_p t (19 / 20))) ∧
    (¬t > 0 → read_strategy env = .ok .greedy ∧
      ∀ v, AgenticProposalRH.init (("TOP_P", v) :: env)
          = AgenticProposalRH.init env) ∧
    (∀ s, AgenticProposalRH.init env = .ok s →
      read_strategy env = .ok s.sampling_params.strategy) := by
  refine ⟨?_, ?_, ?_, ?_, ?_⟩
  · intro hnone
    rw [read_temperature, hnone] at ht
    exact (Option.some.injEq _ _ ▸ ht).symm
  · intro hpos p hp
    simp [read_strategy, ht, hpos, hp]
  · intro hpos hnone
    simp [read_strategy, read_top_p, ht, hpos, hnone]
  · intro hpos
    have hS' : read_strategy env = .ok .greedy := by
      simp [read_strategy, ht, hpos]
    refine ⟨hS', ?_⟩
    intro v
    have hT : read_temperature (("TOP_P", v) :: env) = read_temperature env := by
      unfold read_temperature
      rw [getenv_cons_ne _ _ _ _ (by decide)]
    have hMT : read_max_tokens (("TOP_P", v) :: env) = read_max_tokens env := by
      unfold read_max_tokens
      rw [getenv_cons_ne _ _ _ _ (by decide)]
    have hMI : read_max_infer_iters (("TOP_P", v) :: env)
        = read_max_infer_iters env := by
      unfold read_max_infer_iters
      rw [getenv_cons_ne _ _ _ _ (by decide)]
    have hS : read_strategy (("TOP_P", v) :: env) = .ok .greedy := by
      rw [read_strategy, hT, ht]
      simp [hpos]
    simp only [init, hS, hS', hMT, hMI,
      getenvD_cons_ne "TOP_P" v env "ROOT_LOG_LEVEL" "INFO" (by decide),
      getenvD_cons_ne "TOP_P" v env "APP_LOG_LEVEL" "INFO" (by decide),
      getenvD_cons_ne "TOP_P" v env "MODEL_ID" "granite-3-3-8b-instruct"
        (by decide),
      getenvD_cons_ne "TOP_P" v env "LLAMA_STACK_BASE_URL"
        "http://localhost:8321" (by decide),
      getenvD_cons_ne "TOP_P" v env "STREAM" "True" (by decide)]
  · intro s hok
    exact (init_ok_elim env s hok).1

/-- Witness for C8: `TEMPERATURE=2.0` with `TOP_P=0.5` yields the
nucleus-sampling strategy carrying temperature `2` and top-p `1/2`. -/
theorem sampling_strategy_spec_example :
    read_temperature [("TEMPERATURE", "2.0"), ("TOP_P", "0.5")] = some 2 ∧
      read_strategy [("TEMPERATURE", "2.0"), ("TOP_P", "0.5")]
        = .ok (.top_p 2 (1 / 2)) :=
  have ht : read_temperature [("TEMPERATURE", "2.0"), ("TOP_P", "0.5")]
      = some 2 := by with_unfolding_all rfl
  ⟨ht,
   (sampling_strategy_spec _ 2 ht).2.1 (by norm_num) (1 / 2)
     (by with_unfolding_all rfl)⟩

/-- C9: the `history` argument the chat UI passes to `make_questions` is
never read — with the same object state, question and response stream,
any two history arguments give identical results (state, request and
yielded fragments). -/
theorem make_questions_ignores_history
    (st : AgenticProposalRH.AgentState) (q : String)
    (h₁ h₂ : List String) (rs : List Response) :
    make_questions st q h₁ rs = make_questions st q h₂ rs := rfl

/-- C10: a stream record with no truthy error and no `turn_complete`
event is silently skipped: removing it from the stream changes nothing —
not the yielded fragments, not the accumulator threading, not the
resulting object state, not the request. -/
theorem make_questions_skips_other_records
    (st : AgenticProposalRH.AgentState) (q : String) (h : List String)
    (pre post : List Response) (r : Response)
    (hr : r.error = none) (htc : isTurnComplete r = false) :
    make_questions st q h (pre ++ r :: post)
      = make_questions st q h (pre ++ post) := by
  unfold make_questions
  rw [process_stream_skips r hr htc pre post ""]

/-- Witness for C10: an incremental `step_progress` record between two
completed turns is skipped without affecting anything. -/
theorem make_questions_skips_other_records_example :
    stepResponse.error = none ∧ isTurnComplete stepResponse = false ∧
      make_questions demoState "hello" []
          [complete "A", stepResponse, complete "B"]
        = make_questions demoState "hello" [] [complete "A", complete "B"] :=
  ⟨rfl, rfl,
   make_questions_skips_other_records demoState "hello" [] [complete "A"]
     [complete "B"] stepResponse rfl rfl⟩
